import Mathlib

/-!
Shallow embedding of the Leakomatic Home Assistant integration
(custom_components/leakomatic), covering the pieces needed to settle the
frozen claims: the authentication/login flow, the device-data cache, the
WebSocket reconnect loop, mode changes, message-type extraction, and the
binary-sensor dispatch (flow indicator and valve sensors).

Python values parsed from JSON are modelled by the inductive PyVal; Python
floats are modelled as exact rationals (no float arithmetic occurs in the
modelled code, only equality comparison against small integer constants).
Machine-level concerns do not arise: the code manipulates unbounded Python
ints and strings.
-/

namespace Leakomatic

/-- Python/JSON values as produced by json.loads plus Python None/bool. -/
inductive PyVal where
  | none
  | bool (b : Bool)
  | int (n : Int)
  | float (q : ℚ)
  | str (s : String)
  | list (xs : List PyVal)
  | dict (kvs : List (String × PyVal))
deriving Repr, Inhabited

/-- Association-list model of a Python dict (keys are strings, as in all the
JSON payloads handled by this integration; Python dict keys are unique). -/
def PyDict := List (String × PyVal)

instance : Inhabited PyDict := ⟨([] : List (String × PyVal))⟩

instance : Repr PyDict := inferInstanceAs (Repr (List (String × PyVal)))

/-- Python truthiness of a parsed value. -/
def PyVal.isTruthy : PyVal → Bool
  | .none => false
  | .bool b => b
  | .int n => n ≠ 0
  | .float q => q ≠ 0
  | .str s => s ≠ ""
  | .list xs => ¬ xs.isEmpty
  | .dict kvs => ¬ kvs.isEmpty

/-- Python dict lookup: d.get(k) returning None as Option.none. -/
def PyDict.get? (d : PyDict) (k : String) : Option PyVal :=
  match d with
  | [] => Option.none
  | (k', v) :: rest => if k' = k then some v else PyDict.get? rest k

/-- Python d.get(k) : missing keys give Python None. -/
def PyDict.getD (d : PyDict) (k : String) : PyVal :=
  (d.get? k).getD PyVal.none

/-- Python "k in d". -/
def PyDict.hasKey (d : PyDict) (k : String) : Bool :=
  (d.get? k).isSome

/-- Python truthiness of a dict: empty dict is falsy. -/
def PyDict.isTruthy (d : PyDict) : Bool :=
  match d with
  | [] => false
  | _ :: _ => true

/-- Whether the char list p is a prefix of s. -/
def charsStartWith : List Char → List Char → Bool
  | _, [] => true
  | [], _ :: _ => false
  | c :: cs, p :: ps => c = p && charsStartWith cs ps

/-- Whether pat occurs as a contiguous run inside s. -/
def charsContains (s pat : List Char) : Bool :=
  charsStartWith s pat ||
    match s with
    | [] => false
    | _ :: rest => charsContains rest pat

/-- Python substring test: pat in s (pat nonempty in all uses). -/
def strContains (s pat : String) : Bool :=
  charsContains s.data pat.data

/-- Python str.upper on one character, modelled exactly where the result
can influence a comparison against the ASCII mode names HOME, AWAY and
PAUSE (the only use of upper-casing in this code): ASCII letters
upper-case as usual, and U+017F LATIN SMALL LETTER LONG S upper-cases to
S.  An enumeration of the Unicode full uppercase mappings shows U+017F and
U+00DF are the only codepoints beyond ASCII whose Python uppercase
consists solely of letters of those names, and U+00DF yields SS, a pair
that occurs in none of the names — so every other character can be left
unchanged: Python may upper-case it differently, but in either mapping the
resulting string differs from all three names. -/
def pyUpperChar (c : Char) : Char :=
  if c = 'ſ' then 'S' else c.toUpper

/-- Python str.upper (see pyUpperChar: faithful wherever the result is
compared against the upper-case device-mode names). -/
def pyUpper (s : String) : String :=
  String.mk (s.data.map pyUpperChar)

/-- Python s.replace(pat, repl) with a nonempty pattern: left-to-right,
non-overlapping. -/
def charsReplace (pat repl : List Char) : List Char → List Char
  | [] => []
  | c :: rest =>
    if charsStartWith (c :: rest) pat then
      repl ++ charsReplace pat repl (rest.drop (pat.length - 1))
    else c :: charsReplace pat repl rest
termination_by s => s.length
decreasing_by
  · simp [List.length_drop]; omega
  · simp

/-- The last segment of Python s.split(sep): everything after the final
separator (the whole string when the separator is absent). -/
def strSplitLastSeg (s : String) (sep : Char) : String :=
  String.mk ((s.data.reverse.takeWhile (fun c => c ≠ sep)).reverse)

/-- Python equality of a parsed value against a string constant: only a str
with the same contents compares equal (no other JSON value equals a str). -/
def PyVal.eqStr (v : PyVal) (t : String) : Bool :=
  match v with
  | .str s => s = t
  | _ => false

/-- Python numeric view of a value: bools are ints 0/1, ints and floats are
numbers; everything else is non-numeric. -/
def PyVal.asNum? (v : PyVal) : Option ℚ :=
  match v with
  | .bool b => some (if b then 1 else 0)
  | .int n => some (n : ℚ)
  | .float q => some q
  | _ => Option.none

/-- Python equality of a parsed value against an int constant
(True == 1, 1.0 == 1 in Python). -/
def PyVal.eqInt (v : PyVal) (n : Int) : Bool :=
  match v.asNum? with
  | some q => q = (n : ℚ)
  | Option.none => false

/-- Python x & m for a parsed value (bool is an int subtype; other types
raise TypeError, modelled as Except.error). Int.land has two's-complement
semantics on negatives, matching Python. -/
def PyVal.landInt (v : PyVal) (m : Int) : Except Unit Int :=
  match v with
  | .int n => .ok (Int.land n m)
  | .bool b => .ok (Int.land (if b then 1 else 0) m)
  | _ => .error ()

/-! ### Constants from const.py -/

def START_URL : String := "https://cloud.leakomatic.com/login"
def LOGIN_URL : String := "https://cloud.leakomatic.com:443/login"
def STATUS_URL : String := "https://cloud.leakomatic.com/devices"
def WEBSOCKET_URL : String := "wss://ws-api.leakomatic.com/cable"

/-- Message types from the Leakomatic websocket (const.MessageType),
in definition order. -/
inductive MessageType where
  | WELCOME
  | PING
  | CONFIRM_SUBSCRIPTION
  | DEVICE_UPDATED
  | ALARM_TRIGGERED
  | CONFIGURATION_ADDED
  | QUICK_TEST_UPDATED
  | TIGHTNESS_TEST_UPDATED
  | FLOW_UPDATED
  | FLOW_SENSOR_UPDATED
  | ANALOG_SENSOR_MESSAGE
  | DEVICE_OFFLINE
  | STATUS_MESSAGE
  | WATER_METER_CALIBRATION_UPDATED
deriving Repr, DecidableEq

/-- The string value of each MessageType member. -/
def MessageType.value : MessageType → String
  | .WELCOME => "welcome"
  | .PING => "ping"
  | .CONFIRM_SUBSCRIPTION => "confirm_subscription"
  | .DEVICE_UPDATED => "device_updated"
  | .ALARM_TRIGGERED => "alarm_triggered"
  | .CONFIGURATION_ADDED => "configuration_added"
  | .QUICK_TEST_UPDATED => "quick_test_updated"
  | .TIGHTNESS_TEST_UPDATED => "tightness_test_updated"
  | .FLOW_UPDATED => "flow_updated"
  | .FLOW_SENSOR_UPDATED => "flow_sensor_updated"
  | .ANALOG_SENSOR_MESSAGE => "analog_sensor_message"
  | .DEVICE_OFFLINE => "device_offline"
  | .STATUS_MESSAGE => "status_message"
  | .WATER_METER_CALIBRATION_UPDATED => "water_meter_calibration_updated"

/-- Iteration order of the MessageType enum, as used by the list
comprehension in _extract_message_type. -/
def MessageType.members : List MessageType :=
  [.WELCOME, .PING, .CONFIRM_SUBSCRIPTION, .DEVICE_UPDATED, .ALARM_TRIGGERED,
   .CONFIGURATION_ADDED, .QUICK_TEST_UPDATED, .TIGHTNESS_TEST_UPDATED,
   .FLOW_UPDATED, .FLOW_SENSOR_UPDATED, .ANALOG_SENSOR_MESSAGE,
   .DEVICE_OFFLINE, .STATUS_MESSAGE, .WATER_METER_CALIBRATION_UPDATED]

def MAX_RETRIES : Nat := 5
def RETRY_DELAY : Nat := 60

def ERROR_AUTH_TOKEN_MISSING : String := "auth_token_missing"
def ERROR_INVALID_CREDENTIALS : String := "invalid_credentials"
def ERROR_XSRF_TOKEN_MISSING : String := "xsrf_token_missing"
def ERROR_NO_DEVICES_FOUND : String := "no_devices_found"

/-! ### HTML documents and HTTP responses, as seen through BeautifulSoup

The login flow inspects only a few features of each parsed document:
the csrf-token meta tag, divs with class alert-danger, anchor hrefs, and
tr ids.  An Html value records exactly those features, in document order. -/

structure Html where
  /-- content attribute of the meta tag with name csrf-token, if the tag
  and the attribute are present. -/
  csrfContent : Option String
  /-- texts of div elements with class alert-danger. -/
  alertDangerTexts : List String
  /-- href attribute of each a element that has one, in document order. -/
  aHrefs : List String
  /-- id attribute of each tr element that has one, in document order. -/
  trIds : List String
deriving Repr

/-- An HTTP response to the start-page GET. -/
structure StartResponse where
  status : Nat
  cookies : List (String × String)
  html : Html
deriving Repr

/-- An HTTP response to the login POST.  xsrfCookieStr is str(morsel) of the
XSRF-TOKEN cookie when that cookie is present (the code runs the regex
XSRF-TOKEN=([^;]+) over this rendered string). -/
structure LoginResponse where
  status : Nat
  cookies : List (String × String)
  xsrfCookieStr : Option String
  html : Html
deriving Repr

/-- re.search of XSRF-TOKEN=([^;]+) over a char list: at each position in
turn, match the literal XSRF-TOKEN= followed by a maximal nonempty
semicolon-free run; the first position where the whole pattern matches
wins. -/
def xsrfSearch : List Char → Option (List Char)
  | [] => Option.none
  | c :: rest =>
    if charsStartWith (c :: rest) ("XSRF-TOKEN=".data) then
      let tok := ((c :: rest).drop ("XSRF-TOKEN=".data.length)).takeWhile
        (fun ch => ch ≠ ';')
      if tok.isEmpty then xsrfSearch rest else some tok
    else xsrfSearch rest

/-- re.search(XSRF_TOKEN_PATTERN, s) with pattern XSRF-TOKEN=([^;]+),
returning group(1). -/
def extractXsrfFromStr (s : String) : Option String :=
  (xsrfSearch s.data).map String.mk

/-- LeakomaticClient._async_get_xsrf_token: read the XSRF-TOKEN cookie from
the response and extract the token value with the regex. -/
def asyncGetXsrfToken (r : LoginResponse) : Option String :=
  match r.xsrfCookieStr with
  | Option.none => Option.none
  | some s => extractXsrfFromStr s

/-! ### Client state (the mutable fields of LeakomaticClient) -/

structure ClientState where
  authToken : Option String := Option.none
  deviceIds : List String := []
  userId : Option String := Option.none
  errorCode : Option String := Option.none
  xsrfToken : Option String := Option.none
  /-- self._cookies, None until the start page has been fetched. -/
  cookies : Option (List (String × String)) := Option.none
  wsRunning : Bool := true
  deviceDataCache : List (String × PyVal) := []
  /-- cache timestamps, in seconds (datetime modelled as epoch seconds). -/
  deviceDataCacheTime : List (String × Int) := []
deriving Repr

/-- A freshly constructed client (LeakomaticClient.__init__). -/
def ClientState.fresh : ClientState := {}

/-- CookieJar.update: cookies from the response override same-named ones. -/
def updateCookies (old new_ : List (String × String)) :
    List (String × String) :=
  old.filter (fun p => ¬ (new_.map Prod.fst).contains p.1) ++ new_

/-- Assoc-list lookup used for the device-data cache dicts. -/
def alistGet? {α : Type} (l : List (String × α)) (k : String) : Option α :=
  match l with
  | [] => Option.none
  | (k', v) :: rest => if k' = k then some v else alistGet? rest k

/-- Assoc-list update dict[k] = v. -/
def alistSet {α : Type} (l : List (String × α)) (k : String) (v : α) :
    List (String × α) :=
  match l with
  | [] => [(k, v)]
  | (k', v') :: rest =>
    if k' = k then (k, v) :: rest else (k', v') :: alistSet rest k v

/-! ### _async_get_startpage and _async_login -/

/-- LeakomaticClient._async_get_startpage: on a 200 response, store the
response cookies and return the csrf-token meta content (None when the tag
or its content is missing or empty). -/
def asyncGetStartpage (s : ClientState) (r : StartResponse) :
    Option String × ClientState :=
  if r.status ≠ 200 then (Option.none, s)
  else
    let s := { s with cookies := some r.cookies }
    match r.html.csrfContent with
    | Option.none => (Option.none, s)
    | some c => if c = "" then (Option.none, s) else (some c, s)

/-- The href filter of soup.find(a, href contains /users/). -/
def isUserHref (h : String) : Bool :=
  h ≠ "" && strContains h "/users/"

/-- The id filter of soup.find_all(tr, id startswith device_). -/
def isDeviceRowId (x : String) : Bool :=
  x ≠ "" && charsStartWith x.data "device_".data

/-- Python str.replace: remove every occurrence of device_ from an id
(element id .replace of device_ by the empty string). -/
def stripDeviceId (s : String) : String :=
  String.mk (charsReplace "device_".data [] s.data)

/-- LeakomaticClient._async_login, as a function of the login response.

Mirrors the source order: non-200 status sets invalid_credentials; a
missing/unextractable XSRF cookie sets xsrf_token_missing; then cookies and
the XSRF token are stored; an alert-danger div sets invalid_credentials;
then the user id is extracted from the first anchor whose href contains
/users/ — when no such anchor exists the source's logging statement
references an undefined local variable device_id, raising NameError, which
escapes to the outer except handler: the call returns False with no error
code set.  Finally the device rows are collected; no rows sets
no_devices_found, otherwise the ids with device_ removed are stored and the
call returns True. -/
def asyncLogin (s : ClientState) (r : LoginResponse) : Bool × ClientState :=
  if r.status ≠ 200 then
    (false, { s with errorCode := some ERROR_INVALID_CREDENTIALS })
  else
    match asyncGetXsrfToken r with
    | Option.none =>
      (false, { s with errorCode := some ERROR_XSRF_TOKEN_MISSING })
    | some tok =>
      let s := { s with
        cookies := some (updateCookies (s.cookies.getD []) r.cookies),
        xsrfToken := some tok }
      if r.html.alertDangerTexts ≠ [] then
        (false, { s with errorCode := some ERROR_INVALID_CREDENTIALS })
      else
        match (r.html.aHrefs.filter isUserHref).head? with
        | Option.none =>
          -- NameError on the undefined device_id in the logging call,
          -- caught by the outer except: return False, error code unchanged
          (false, s)
        | some href =>
          let s := { s with
            userId := some (strSplitLastSeg href '/') }
          let deviceElements := r.html.trIds.filter isDeviceRowId
          if deviceElements = [] then
            (false, { s with errorCode := some ERROR_NO_DEVICES_FOUND })
          else
            (true, { s with
              deviceIds := deviceElements.map stripDeviceId })

/-- LeakomaticClient.async_authenticate: fetch the start page for the auth
token, then log in.  The start page failing to yield a token sets
auth_token_missing. -/
def asyncAuthenticate (s : ClientState) (start : StartResponse)
    (login : LoginResponse) : Bool × ClientState :=
  let (tok?, s1) := asyncGetStartpage s start
  let s1 := { s1 with authToken := tok? }
  match tok? with
  | Option.none =>
    (false, { s1 with errorCode := some ERROR_AUTH_TOKEN_MISSING })
  | some _ => asyncLogin s1 login

/-! ### _extract_message_type (leakomatic_client.py)

Non-dict values reached through Python operations that would raise
(AttributeError on .get, TypeError on membership in a non-container) are
modelled as Except.error; a str or list on the right of the in operator
does not raise and is modelled faithfully. -/

/-- The string values of every MessageType member,
[m.value for m in MessageType]. -/
def MessageType.allValues : List String :=
  MessageType.members.map MessageType.value

/-- LeakomaticClient._extract_message_type. -/
def extractMessageType (d : PyDict) : Except Unit PyVal :=
  let msgType := d.getD "type"
  if msgType.eqStr MessageType.PING.value ||
      msgType.eqStr MessageType.CONFIRM_SUBSCRIPTION.value ||
      msgType.eqStr MessageType.WELCOME.value then
    .ok msgType
  else do
    let op ← (match d.get? "message" with
      | Option.none => .ok PyVal.none
      | some (PyVal.dict m) => .ok (PyDict.getD m "operation")
      | some _ => .error ())
    if MessageType.allValues.any (fun v => op.eqStr v) then
      .ok op
    else
      match d.get? "message" with
      | Option.none => .ok (PyVal.str "")
      | some (PyVal.dict m) =>
        if PyDict.hasKey m "data" then .ok (PyVal.str "data_update")
        else .ok (PyVal.str "")
      | some (PyVal.str s) =>
        if strContains s "data" then .ok (PyVal.str "data_update")
        else .ok (PyVal.str "")
      | some (PyVal.list xs) =>
        if xs.any (fun v => v.eqStr "data") then .ok (PyVal.str "data_update")
        else .ok (PyVal.str "")
      | some _ => .error ()

/-- The claim's reading of _extract_message_type (claim C10), written from
the claim's words: the top-level type value when it is ping, welcome or
confirm_subscription; otherwise message.operation when it equals one of the
MessageType enum values; otherwise data_update when the message field holds
a data key; otherwise the empty string. -/
def extractMessageTypeSpec (d : PyDict) : String :=
  let rest :=
    match d.get? "message" with
    | some (PyVal.dict m) =>
      (match PyDict.get? m "operation" with
       | some (PyVal.str op) =>
         if op ∈ MessageType.allValues then op
         else if PyDict.hasKey m "data" then "data_update" else ""
       | _ => if PyDict.hasKey m "data" then "data_update" else "")
    | _ => ""
  match d.get? "type" with
  | some (PyVal.str s) =>
    if s = "ping" ∨ s = "welcome" ∨ s = "confirm_subscription" then s
    else rest
  | _ => rest

/-! ### Binary sensors (binary_sensor.py) -/

/-- FlowIndicatorBinarySensor: only the mutable _device_data matters to its
state. -/
structure FlowIndicatorBinarySensor where
  deviceData : PyDict
deriving Repr

/-- FlowIndicatorBinarySensor.is_on: None without device data, else
flow_mode == 1 under Python equality. -/
def FlowIndicatorBinarySensor.is_on (s : FlowIndicatorBinarySensor) :
    Option Bool :=
  if ¬ s.deviceData.isTruthy then Option.none
  else some ((s.deviceData.getD "flow_mode").eqInt 1)

/-- FlowIndicatorBinarySensor.handle_update: replace _device_data. -/
def FlowIndicatorBinarySensor.handle_update (_s : FlowIndicatorBinarySensor)
    (data : PyDict) : FlowIndicatorBinarySensor :=
  { deviceData := data }

/-- OnlineStatusBinarySensor: _device_data plus the _last_seen timestamp
(seconds). -/
structure OnlineStatusBinarySensor where
  deviceData : PyDict
  lastSeen : Option Int
deriving Repr

/-- OnlineStatusBinarySensor.handle_update.  parseIso models
datetime.fromisoformat on the last_seen_at string (None when parsing raises
ValueError, in which case the code falls back to the current time); a
non-str last_seen_at raises AttributeError on .replace, which the except
clause does not catch. -/
def OnlineStatusBinarySensor.handle_update (parseIso : String → Option Int)
    (now : Int) (s : OnlineStatusBinarySensor) (data : PyDict)
    (updateLastSeen : Bool) : Except Unit OnlineStatusBinarySensor :=
  if updateLastSeen then
    match data.get? "last_seen_at" with
    | Option.none => .ok { s with lastSeen := some now, deviceData := data }
    | some (PyVal.str t) =>
      match parseIso t with
      | some ts => .ok { s with lastSeen := some ts, deviceData := data }
      | Option.none => .ok { s with lastSeen := some now, deviceData := data }
    | some _ => .error ()
  else .ok { s with deviceData := data }

/-- OnlineStatusBinarySensor.is_on: last seen within 5 minutes, else the
is_online field's truthiness. -/
def OnlineStatusBinarySensor.is_on (now : Int)
    (s : OnlineStatusBinarySensor) : Option Bool :=
  if ¬ s.deviceData.isTruthy then Option.none
  else
    match s.lastSeen with
    | some t => some (decide (((now : ℚ) - (t : ℚ)) / 60 < 5))
    | Option.none => some (s.deviceData.getD "is_online").isTruthy

/-- ValveBinarySensor: only _device_data matters. -/
structure ValveBinarySensor where
  deviceData : PyDict
deriving Repr

/-- ValveBinarySensor.is_on: None without data or without port_state, else
open (True) exactly when bit 7 of port_state is clear
(port_state & (1 << 7) == 0). -/
def ValveBinarySensor.is_on (s : ValveBinarySensor) :
    Except Unit (Option Bool) :=
  if ¬ s.deviceData.isTruthy then .ok Option.none
  else
    match s.deviceData.get? "port_state" with
    | Option.none => .ok Option.none
    | some PyVal.none => .ok Option.none
    | some v => do
      let n ← v.landInt 128  -- 1 << 7
      pure (some (n = 0))

/-- ValveBinarySensor.handle_update: the debug log evaluates
port_state & (1 << 7) when port_state is not None (raising TypeError on a
non-numeric value), then _device_data is replaced. -/
def ValveBinarySensor.handle_update (_s : ValveBinarySensor)
    (data : PyDict) : Except Unit ValveBinarySensor :=
  match data.get? "port_state" with
  | Option.none => .ok { deviceData := data }
  | some PyVal.none => .ok { deviceData := data }
  | some v => do
    let _ ← v.landInt 128
    pure { deviceData := data }

/-- The three binary-sensor entities created by async_setup_entry, as the
heterogeneous list handed to the message registry. -/
inductive BSensor where
  | flow (s : FlowIndicatorBinarySensor)
  | online (s : OnlineStatusBinarySensor)
  | valve (s : ValveBinarySensor)
deriving Repr

/-- message.get("message", Set()).get("data", Set()) as a raw value: raises
(AttributeError) when the message field is present but not a dict. -/
def wsMessageRaw (msg : PyDict) : Except Unit PyVal :=
  match msg.get? "message" with
  | Option.none => .ok (PyVal.dict [])
  | some (PyVal.dict m) => .ok ((PyDict.get? m "data").getD (PyVal.dict []))
  | some _ => .error ()

/-- A subsequent .get on the extracted data value: raises when it is not a
dict. -/
def asDict (v : PyVal) : Except Unit PyDict :=
  match v with
  | PyVal.dict d => .ok d
  | _ => .error ()

/-- binary_sensor.handle_flow_update: FlowIndicator sensors get the data,
OnlineStatus sensors get is_online True with last_seen updated. -/
def handle_flow_update (parseIso : String → Option Int) (now : Int)
    (msg : PyDict) (sensors : List BSensor) : Except Unit (List BSensor) := do
  let raw ← wsMessageRaw msg
  let data ← asDict raw  -- the debug log reads data.get("flow_mode")
  sensors.mapM fun s =>
    match s with
    | .flow f => pure (.flow (f.handle_update data))
    | .online o => do
      let o' ← o.handle_update parseIso now [("is_online", PyVal.bool true)] true
      pure (BSensor.online o')
    | .valve v => pure (.valve v)

/-- binary_sensor.handle_device_update: OnlineStatus sensors get the data
with last_seen updated, Valve sensors get the data. -/
def handle_device_update (parseIso : String → Option Int) (now : Int)
    (msg : PyDict) (sensors : List BSensor) : Except Unit (List BSensor) := do
  let raw ← wsMessageRaw msg
  let data ← asDict raw  -- the debug log reads data.get("is_online")
  sensors.mapM fun s =>
    match s with
    | .flow f => pure (.flow f)
    | .online o => do
      let o' ← o.handle_update parseIso now data true
      pure (BSensor.online o')
    | .valve v => do
      let v' ← v.handle_update data
      pure (BSensor.valve v')

/-- binary_sensor.handle_quick_test_update: only OnlineStatus sensors are
touched (is_online True). -/
def handle_quick_test_update (parseIso : String → Option Int) (now : Int)
    (msg : PyDict) (sensors : List BSensor) : Except Unit (List BSensor) := do
  let raw ← wsMessageRaw msg
  let _data ← asDict raw  -- value = data.get("value")
  sensors.mapM fun s =>
    match s with
    | .online o => do
      let o' ← o.handle_update parseIso now [("is_online", PyVal.bool true)] true
      pure (BSensor.online o')
    | other => pure other

/-- binary_sensor.handle_tightness_test_update: only OnlineStatus sensors
are touched; the data value is only logged, so a non-dict does not raise
here. -/
def handle_tightness_test_update (parseIso : String → Option Int) (now : Int)
    (msg : PyDict) (sensors : List BSensor) : Except Unit (List BSensor) := do
  let _raw ← wsMessageRaw msg
  sensors.mapM fun s =>
    match s with
    | .online o => do
      let o' ← o.handle_update parseIso now [("is_online", PyVal.bool true)] true
      pure (BSensor.online o')
    | other => pure other

/-- binary_sensor.handle_status_update: Valve sensors get the data,
OnlineStatus sensors get is_online True. -/
def handle_status_update (parseIso : String → Option Int) (now : Int)
    (msg : PyDict) (sensors : List BSensor) : Except Unit (List BSensor) := do
  let raw ← wsMessageRaw msg
  let data ← asDict raw  -- the debug log reads data.get("port_state")
  sensors.mapM fun s =>
    match s with
    | .flow f => pure (.flow f)
    | .online o => do
      let o' ← o.handle_update parseIso now [("is_online", PyVal.bool true)] true
      pure (BSensor.online o')
    | .valve v => do
      let v' ← v.handle_update data
      pure (BSensor.valve v')

/-- binary_sensor.handle_ping: OnlineStatus sensors get empty data without
touching last_seen. -/
def handle_ping (parseIso : String → Option Int) (now : Int)
    (_msg : PyDict) (sensors : List BSensor) : Except Unit (List BSensor) :=
  sensors.mapM fun s =>
    match s with
    | .online o => do
      let o' ← o.handle_update parseIso now [] false
      pure (BSensor.online o')
    | other => pure other

/-- binary_sensor.handle_device_offline: OnlineStatus sensors get
is_online False without touching last_seen. -/
def handle_device_offline (parseIso : String → Option Int) (now : Int)
    (_msg : PyDict) (sensors : List BSensor) : Except Unit (List BSensor) :=
  sensors.mapM fun s =>
    match s with
    | .online o => do
      let o' ← o.handle_update parseIso now [("is_online", PyVal.bool false)] false
      pure (BSensor.online o')
    | other => pure other

/-- MessageHandlerRegistry.handle_message's type extraction: prefer a
message.operation field, then the top-level type field, then the empty
string.  A present non-dict message field raises on the membership test
(except for str and list, where Python's in succeeds; a str containing
"operation" then raises on indexing). -/
def dispatchMsgType (msg : PyDict) : Except Unit PyVal :=
  let fallback :=
    match msg.get? "type" with
    | some t => Except.ok t
    | Option.none => Except.ok (PyVal.str "")
  match msg.get? "message" with
  | some (PyVal.dict m) =>
    (match PyDict.get? m "operation" with
     | some op => .ok op
     | Option.none => fallback)
  | some (PyVal.str s) =>
    if strContains s "operation" then .error () else fallback
  | some (PyVal.list xs) =>
    if xs.any (fun v => v.eqStr "operation") then .error () else fallback
  | some _ => .error ()
  | Option.none => fallback

/-- The binary_sensor module's registry dispatch (message_registry with the
seven registered handlers and handle_default, which only logs).  A list or
dict message type is unhashable and raises on the handler lookup. -/
def registryHandleMessage (parseIso : String → Option Int) (now : Int)
    (msg : PyDict) (sensors : List BSensor) : Except Unit (List BSensor) := do
  let t ← dispatchMsgType msg
  match t with
  | PyVal.list _ => .error ()
  | PyVal.dict _ => .error ()
  | _ =>
    if t.eqStr MessageType.FLOW_UPDATED.value then
      handle_flow_update parseIso now msg sensors
    else if t.eqStr MessageType.DEVICE_UPDATED.value then
      handle_device_update parseIso now msg sensors
    else if t.eqStr MessageType.QUICK_TEST_UPDATED.value then
      handle_quick_test_update parseIso now msg sensors
    else if t.eqStr MessageType.TIGHTNESS_TEST_UPDATED.value then
      handle_tightness_test_update parseIso now msg sensors
    else if t.eqStr MessageType.STATUS_MESSAGE.value then
      handle_status_update parseIso now msg sensors
    else if t.eqStr MessageType.PING.value then
      handle_ping parseIso now msg sensors
    else if t.eqStr MessageType.DEVICE_OFFLINE.value then
      handle_device_offline parseIso now msg sensors
    else
      .ok sensors

/-! ### DeviceMode (const.py) -/

/-- Device operating modes (const.DeviceMode). -/
inductive DeviceMode where
  | HOME
  | AWAY
  | PAUSE
deriving Repr, DecidableEq

/-- The numeric value of each DeviceMode member. -/
def DeviceMode.value : DeviceMode → Nat
  | .HOME => 0
  | .AWAY => 1
  | .PAUSE => 2

/-- DeviceMode.from_string: look the upper-cased string up among the member
names, raising ValueError (modelled as Except.error with the message) when
absent. -/
def DeviceMode.from_string (modeStr : String) : Except String Nat :=
  match pyUpper modeStr with
  | "HOME" => .ok DeviceMode.HOME.value
  | "AWAY" => .ok DeviceMode.AWAY.value
  | "PAUSE" => .ok DeviceMode.PAUSE.value
  | _ => .error ("Invalid mode: " ++ modeStr ++
      ". Must be one of: home, away, pause")

/-! ### HTTP environment and observable effects

The client's remaining methods talk to the network.  An Env fixes the
responses the vendor site would give; the effect trace records every
network interaction the client performs (authenticate covers the start-page
GET and login POST of async_authenticate). -/

inductive Effect where
  | authenticate
  | httpGet (url : String)
  | httpPost (url : String)
deriving Repr, DecidableEq

/-- A response to an authenticated GET.  body is the parsed
response.json(), None when JSON decoding raises. -/
structure GetResponse where
  status : Nat
  cookies : List (String × String)
  xsrfCookieStr : Option String
  body : Option PyVal
deriving Repr

/-- A response to an authenticated POST. -/
structure PostResponse where
  status : Nat
  cookies : List (String × String)
  xsrfCookieStr : Option String
deriving Repr

structure Env where
  startResponse : StartResponse
  loginResponse : LoginResponse
  getResponse : String → GetResponse
  postResponse : String → PostResponse

/-- LeakomaticClient._update_session_from_response: merge the response
cookies and adopt a newly extracted XSRF token when one is present. -/
def updateSessionFromResponse (s : ClientState)
    (cookies : List (String × String)) (xsrfCookieStr : Option String) :
    ClientState :=
  let s := { s with
    cookies := some (updateCookies (s.cookies.getD []) cookies) }
  match xsrfCookieStr with
  | Option.none => s
  | some raw =>
    match extractXsrfFromStr raw with
    | some t => { s with xsrfToken := some t }
    | Option.none => s

/-- LeakomaticClient._ensure_authenticated: authenticate when no (truthy)
XSRF token is stored. -/
def ensureAuthenticated (env : Env) (s : ClientState) :
    Bool × ClientState × List Effect :=
  if s.xsrfToken = Option.none ∨ s.xsrfToken = some "" then
    let (ok, s') := asyncAuthenticate s env.startResponse env.loginResponse
    (ok, s', [Effect.authenticate])
  else (true, s, [])

/-! ### async_get_device_data (with its 15-minute cache) -/

/-- The fetch path of async_get_device_data once the cache misses:
authenticate if needed, GET the device's JSON endpoint, refresh the
session, store the body in the cache stamped with now. -/
def fetchDeviceData (env : Env) (now : Int) (s : ClientState)
    (deviceId : String) : Option PyVal × ClientState × List Effect :=
  let (ok, s1, effs) := ensureAuthenticated env s
  if ¬ ok then (Option.none, s1, effs)
  else
    let url := STATUS_URL ++ "/" ++ deviceId ++ ".json"
    let r := env.getResponse url
    let effs := effs ++ [Effect.httpGet url]
    if r.status ≠ 200 then (Option.none, s1, effs)
    else
      let s2 := updateSessionFromResponse s1 r.cookies r.xsrfCookieStr
      match r.body with
      | Option.none => (Option.none, s2, effs)
      | some data =>
        (some data,
         { s2 with
           deviceDataCache := alistSet s2.deviceDataCache deviceId data,
           deviceDataCacheTime :=
             alistSet s2.deviceDataCacheTime deviceId now },
         effs)

/-- The cache check of async_get_device_data: a hit (entry, timestamp, and
now - timestamp < 15 minutes = 900 seconds) returns the cached value with
no effect and no state change. -/
def getDeviceDataResolved (env : Env) (now : Int) (s : ClientState)
    (deviceId : String) : Option PyVal × ClientState × List Effect :=
  match alistGet? s.deviceDataCache deviceId,
        alistGet? s.deviceDataCacheTime deviceId with
  | some v, some t =>
    if now - t < 900 then (some v, s, [])
    else fetchDeviceData env now s deviceId
  | some _, Option.none => fetchDeviceData env now s deviceId
  | Option.none, _ => fetchDeviceData env now s deviceId

/-- device_id = device_id or self.device_id; if not device_id: return None
(self.device_id is the first stored id, when any). -/
def getDeviceDataOne (env : Env) (now : Int) (s : ClientState)
    (deviceId : Option String) : Option PyVal × ClientState × List Effect :=
  let did :=
    match deviceId with
    | some d => if d = "" then s.deviceIds.head? else some d
    | Option.none => s.deviceIds.head?
  match did with
  | Option.none => (Option.none, s, [])
  | some d =>
    if d = "" then (Option.none, s, [])
    else getDeviceDataResolved env now s d

/-- LeakomaticClient.async_get_device_data: with no device id and several
devices, fetch each in turn (recursing with an explicit id) and collect the
truthy results into a dict, returning None when none are; otherwise the
single-device path. -/
def asyncGetDeviceData (env : Env) (now : Int) (s : ClientState)
    (deviceId : Option String) : Option PyVal × ClientState × List Effect :=
  if deviceId = Option.none ∧ 1 < s.deviceIds.length then
    let step := fun (acc : List (String × PyVal) × ClientState × List Effect)
        (devId : String) =>
      let (res, s', effs) := getDeviceDataOne env now acc.2.1 (some devId)
      (match res with
       | some v => if v.isTruthy then acc.1 ++ [(devId, v)] else acc.1
       | Option.none => acc.1,
       s', acc.2.2 ++ effs)
    let (pairs, s', effs) := s.deviceIds.foldl step ([], s, [])
    (if pairs.isEmpty then Option.none else some (PyVal.dict pairs), s', effs)
  else getDeviceDataOne env now s deviceId

/-! ### _async_make_request and async_change_mode -/

/-- LeakomaticClient._async_make_request: resolve the device id,
authenticate if needed, POST to the endpoint, succeed exactly on a 200. -/
def asyncMakeRequest (env : Env) (s : ClientState)
    (endpoint : String) (deviceId : Option String) :
    Bool × ClientState × List Effect :=
  let did :=
    match deviceId with
    | some d => if d = "" then s.deviceIds.head? else some d
    | Option.none => s.deviceIds.head?
  match did with
  | Option.none => (false, s, [])
  | some d =>
    if d = "" then (false, s, [])
    else
      let (ok, s1, effs) := ensureAuthenticated env s
      if ¬ ok then (false, s1, effs)
      else
        let url := STATUS_URL ++ "/" ++ d ++ "/" ++ endpoint
        let r := env.postResponse url
        let effs := effs ++ [Effect.httpPost url]
        if r.status ≠ 200 then (false, s1, effs)
        else (true, updateSessionFromResponse s1 r.cookies r.xsrfCookieStr,
          effs)

/-- The single-device path of async_change_mode (device id already known
to be present or defaulted inside _async_make_request). -/
def asyncChangeModeOne (env : Env) (s : ClientState)
    (deviceId : Option String) : Bool × ClientState × List Effect :=
  let did :=
    match deviceId with
    | some d => if d = "" then s.deviceIds.head? else some d
    | Option.none => s.deviceIds.head?
  match did with
  | Option.none => (false, s, [])
  | some d =>
    if d = "" then (false, s, [])
    else asyncMakeRequest env s "change_mode.json" (some d)

/-- LeakomaticClient.async_change_mode: parse the mode first — an invalid
string raises ValueError inside DeviceMode.from_string, caught by the
handler which returns False without setting an error code and before any
network interaction.  A valid mode is applied to all devices (all results
must succeed) or to the resolved single device. -/
def asyncChangeMode (env : Env) (s : ClientState) (mode : String)
    (deviceId : Option String) : Bool × ClientState × List Effect :=
  match DeviceMode.from_string mode with
  | .error _ => (false, s, [])
  | .ok _ =>
    if deviceId = Option.none ∧ 1 < s.deviceIds.length then
      let step := fun (acc : Bool × ClientState × List Effect)
          (devId : String) =>
        let (r, s', effs) := asyncChangeModeOne env acc.2.1 (some devId)
        (acc.1 && r, s', acc.2.2 ++ effs)
      s.deviceIds.foldl step (true, s, [])
    else asyncChangeModeOne env s deviceId

/-! ### The WebSocket reconnect loop -/

/-- LeakomaticClient.stop_websocket. -/
def stopWebsocket (s : ClientState) : ClientState :=
  { s with wsRunning := false }

/-- Events observable in a run of connect_to_websocket under total
connection failure. -/
inductive WsEvent where
  | attempt (k : Nat)
  | sleep (d : ℚ)
  | errorLog (msg : String)
deriving Repr, DecidableEq

/-- Modelled from the spec: INITIAL_RETRY_DELAY, RETRY_BACKOFF_FACTOR and
MAX_RETRY_DELAY are imported by leakomatic_client.py from const.py but no
file under src/ defines them; the spec says only that the loop retries
with bounded exponential backoff.  They are kept as parameters I (initial
delay), F (backoff factor) and M (delay cap); backoffDelay I F M k is the
value of retry_delay after k consecutive failures:
retry_delay = min(retry_delay * RETRY_BACKOFF_FACTOR, MAX_RETRY_DELAY). -/
def backoffDelay (I F M : ℚ) : Nat → ℚ
  | 0 => I
  | k + 1 => min (backoffDelay I F M k * F) M

/-- The event trace of connect_to_websocket's reconnection loop when the
running flag stays True and every connection attempt raises.  rc and rd
mirror retry_count and retry_delay; u k is the jitter value drawn by
random.uniform(-0.2 * rd, 0.2 * rd) at the k-th failure.  Python floats
are modelled as exact rationals. -/
def wsLoopFail (F M : ℚ) (u : Nat → ℚ) (rc : Nat) (rd : ℚ) : List WsEvent :=
  if rc < MAX_RETRIES then
    WsEvent.attempt (rc + 1) ::
      (if rc + 1 < MAX_RETRIES then
        WsEvent.sleep (min (rd * F) M + u rc) ::
          wsLoopFail F M u (rc + 1) (min (rd * F) M)
      else
        [WsEvent.errorLog
          "Maximum reconnection attempts reached (5). Giving up"])
  else []
termination_by MAX_RETRIES - rc
decreasing_by simp [MAX_RETRIES] at *; omega

/-- Whether a trace event is a connection attempt. -/
def WsEvent.isAttempt : WsEvent → Bool
  | .attempt _ => true
  | _ => false

/-- Whether a trace event is a backoff wait. -/
def WsEvent.isSleep : WsEvent → Bool
  | .sleep _ => true
  | _ => false

/-! ### Step relation of connect_to_websocket (claim C8)

Control locations: outerCheck is the while self._ws_running and
retry_count < MAX_RETRIES test; connecting covers the in-flight
websockets.connect plus the subscribe send; innerCheck is the
while self._ws_running test; receiving is the awaited recv; failWait is
the backoff sleep of the except handler; done is the function having
returned.  stop_websocket can run at any await point, so clearing the flag
is a step available in every state. -/

inductive WsLoc where
  | outerCheck
  | connecting
  | innerCheck
  | receiving
  | failWait
  | done
deriving Repr, DecidableEq

structure WsLoopState where
  loc : WsLoc
  running : Bool
  retryCount : Nat
deriving Repr, DecidableEq

inductive WsStep : WsLoopState → WsLoopState → Prop where
  /-- Loop test passes: begin a connection attempt. -/
  | outerEnter (rc : Nat) (h : rc < MAX_RETRIES) :
      WsStep ⟨.outerCheck, true, rc⟩ ⟨.connecting, true, rc⟩
  /-- Loop test fails (flag cleared or retries exhausted): return. -/
  | outerExit (r : Bool) (rc : Nat) (h : ¬ (r = true ∧ rc < MAX_RETRIES)) :
      WsStep ⟨.outerCheck, r, rc⟩ ⟨.done, r, rc⟩
  /-- Connection established and subscription sent. -/
  | connectOk (r : Bool) (rc : Nat) :
      WsStep ⟨.connecting, r, rc⟩ ⟨.innerCheck, r, rc⟩
  /-- Connection attempt raised with retries left: back off (sleep). -/
  | connectFailRetry (r : Bool) (rc : Nat) (h : rc + 1 < MAX_RETRIES) :
      WsStep ⟨.connecting, r, rc⟩ ⟨.failWait, r, rc + 1⟩
  /-- Connection attempt raised with retries exhausted: log and return. -/
  | connectFailGiveUp (r : Bool) (rc : Nat) (h : ¬ (rc + 1 < MAX_RETRIES)) :
      WsStep ⟨.connecting, r, rc⟩ ⟨.done, r, rc + 1⟩
  /-- Backoff sleep finished: back to the outer loop test. -/
  | waitDone (r : Bool) (rc : Nat) :
      WsStep ⟨.failWait, r, rc⟩ ⟨.outerCheck, r, rc⟩
  /-- Inner loop test passes: await a message. -/
  | innerEnter (rc : Nat) :
      WsStep ⟨.innerCheck, true, rc⟩ ⟨.receiving, true, rc⟩
  /-- Inner loop test fails: leave the receive loop (and, the context
  manager exiting without error, fall through to the outer loop test). -/
  | innerExit (rc : Nat) :
      WsStep ⟨.innerCheck, false, rc⟩ ⟨.outerCheck, false, rc⟩
  /-- A message, a receive timeout, or a handled processing error:
  continue the receive loop. -/
  | recvContinue (r : Bool) (rc : Nat) :
      WsStep ⟨.receiving, r, rc⟩ ⟨.innerCheck, r, rc⟩
  /-- ConnectionClosed: break out to the outer loop test. -/
  | recvClosed (r : Bool) (rc : Nat) :
      WsStep ⟨.receiving, r, rc⟩ ⟨.outerCheck, r, rc⟩
  /-- stop_websocket clears the running flag (possible at any await). -/
  | stopFlag (l : WsLoc) (rc : Nat) :
      WsStep ⟨l, true, rc⟩ ⟨l, false, rc⟩

/-! ## Helper lemmas -/

/-- A dict with a successful lookup is nonempty, hence truthy. -/
theorem PyDict.isTruthy_of_get? {d : PyDict} {k : String} {v : PyVal}
    (h : d.get? k = some v) : d.isTruthy = true := by
  cases d with
  | nil => simp [PyDict.get?] at h
  | cons p rest => simp [PyDict.isTruthy]

/-- An Env whose vendor site rejects everything; used to instantiate
theorems about paths that never reach the network. -/
def trivialEnv : Env where
  startResponse :=
    { status := 500, cookies := [],
      html := { csrfContent := Option.none, alertDangerTexts := [],
                aHrefs := [], trIds := [] } }
  loginResponse :=
    { status := 500, cookies := [], xsrfCookieStr := Option.none,
      html := { csrfContent := Option.none, alertDangerTexts := [],
                aHrefs := [], trIds := [] } }
  getResponse := fun _ =>
    { status := 404, cookies := [], xsrfCookieStr := Option.none,
      body := Option.none }
  postResponse := fun _ =>
    { status := 404, cookies := [], xsrfCookieStr := Option.none }

/-! ## Claim C5 -/

/-- C5: for every update payload carrying an integer port_state, after
ValveBinarySensor.handle_update the sensor reports the valve closed
(is_on = False) exactly when bit 7 (value 128 = 1 << 7) of port_state is
set, and open (is_on = True) when it is clear. -/
theorem valve_port_state_bit7 (v : ValveBinarySensor) (data : PyDict)
    (n : Int) (h : data.get? "port_state" = some (PyVal.int n)) :
    v.handle_update data = .ok { deviceData := data } ∧
    ({ deviceData := data } : ValveBinarySensor).is_on =
      .ok (some (decide (Int.land n 128 = 0))) ∧
    (Int.land n 128 ≠ 0 →
      ({ deviceData := data } : ValveBinarySensor).is_on = .ok (some false)) ∧
    (Int.land n 128 = 0 →
      ({ deviceData := data } : ValveBinarySensor).is_on = .ok (some true)) := by
  have htr := PyDict.isTruthy_of_get? h
  refine ⟨?_, ?_, ?_, ?_⟩
  · simp [ValveBinarySensor.handle_update, h, PyVal.landInt]
  · simp [ValveBinarySensor.is_on, htr, h, PyVal.landInt]
  · intro hb
    simp [ValveBinarySensor.is_on, htr, h, PyVal.landInt, hb]
  · intro hb
    simp [ValveBinarySensor.is_on, htr, h, PyVal.landInt, hb]

/-- Witness for C5 at port_state = 128 (bit 7 set): the update succeeds and
the valve reads closed. -/
theorem valve_port_state_bit7_witness :
    ValveBinarySensor.handle_update ⟨[]⟩ [("port_state", PyVal.int 128)] =
      .ok { deviceData := [("port_state", PyVal.int 128)] } ∧
    ({ deviceData := [("port_state", PyVal.int 128)] } :
      ValveBinarySensor).is_on = .ok (some false) := by
  have h := valve_port_state_bit7 ⟨[]⟩ [("port_state", PyVal.int 128)] 128 rfl
  exact ⟨h.1, h.2.2.1 (by decide)⟩

/-! ## Claim C7 -/

/-- C7: for a device id with a cached entry and a cache timestamp less than
15 minutes (900 seconds) old, async_get_device_data returns the cached
value with no network interaction (empty effect trace: no HTTP request, no
authentication) and leaves the whole client state unchanged. -/
theorem device_data_cache_hit (env : Env) (now : Int) (s : ClientState)
    (d : String) (v : PyVal) (t : Int)
    (hne : d ≠ "")
    (hc : alistGet? s.deviceDataCache d = some v)
    (ht : alistGet? s.deviceDataCacheTime d = some t)
    (hfresh : now - t < 900) :
    asyncGetDeviceData env now s (some d) = (some v, s, []) := by
  simp [asyncGetDeviceData, getDeviceDataOne, getDeviceDataResolved,
    hne, hc, ht, hfresh]

/-- Witness for C7: a client with device 7 cached at time 0, queried at
time 10, answers from the cache with no effects and unchanged state. -/
theorem device_data_cache_hit_witness :
    asyncGetDeviceData trivialEnv 10
      { ClientState.fresh with
        deviceDataCache := [("7", PyVal.int 42)],
        deviceDataCacheTime := [("7", 0)] } (some "7") =
    (some (PyVal.int 42),
     { ClientState.fresh with
       deviceDataCache := [("7", PyVal.int 42)],
       deviceDataCacheTime := [("7", 0)] }, []) :=
  device_data_cache_hit trivialEnv 10 _ "7" (PyVal.int 42) 0
    (by decide) rfl rfl (by decide)

/-! ## Claim C9 -/

/-- Sanity check of pyUpper against Python's full (Unicode) upper-casing:
the mode string with U+017F LONG S upper-cases to PAUSE, so the code
resolves it to a valid mode and proceeds — it is outside the invalid-mode
claim's hypothesis. -/
theorem from_string_long_s : DeviceMode.from_string "pauſe" = .ok 2 := rfl

/-- C9: a mode string whose upper-cased form — Python's full upper-casing,
pyUpper — is not HOME, AWAY or PAUSE makes DeviceMode.from_string raise
ValueError, which async_change_mode catches: it returns False having
issued no HTTP request and changed no client state; the valid strings map
home to 0, away to 1 and pause to 2. -/
theorem change_mode_invalid_noop (env : Env) (s : ClientState)
    (mode : String) (deviceId : Option String)
    (h : pyUpper mode ∉ (["HOME", "AWAY", "PAUSE"] : List String)) :
    asyncChangeMode env s mode deviceId = (false, s, []) ∧
    (∃ e, DeviceMode.from_string mode = .error e) ∧
    DeviceMode.from_string "home" = .ok 0 ∧
    DeviceMode.from_string "away" = .ok 1 ∧
    DeviceMode.from_string "pause" = .ok 2 := by
  have h1 : pyUpper mode ≠ "HOME" := fun hh => h (by simp [hh])
  have h2 : pyUpper mode ≠ "AWAY" := fun hh => h (by simp [hh])
  have h3 : pyUpper mode ≠ "PAUSE" := fun hh => h (by simp [hh])
  have he : DeviceMode.from_string mode =
      Except.error ("Invalid mode: " ++ mode ++
        ". Must be one of: home, away, pause") := by
    unfold DeviceMode.from_string
    split
    · next hh => exact absurd hh h1
    · next hh => exact absurd hh h2
    · next hh => exact absurd hh h3
    · rfl
  exact ⟨by simp [asyncChangeMode, he], ⟨_, he⟩, rfl, rfl, rfl⟩

/-- Witness for C9 at the invalid mode string "homer". -/
theorem change_mode_invalid_noop_witness :
    asyncChangeMode trivialEnv ClientState.fresh "homer" Option.none =
      (false, ClientState.fresh, []) ∧
    (∃ e, DeviceMode.from_string "homer" = .error e) ∧
    DeviceMode.from_string "home" = .ok 0 ∧
    DeviceMode.from_string "away" = .ok 1 ∧
    DeviceMode.from_string "pause" = .ok 2 :=
  change_mode_invalid_noop trivialEnv ClientState.fresh "homer" Option.none
    (by decide)

/-! ## Claim C1 -/

/-- backoffDelay stays nonnegative for nonnegative parameters. -/
theorem backoffDelay_nonneg {I F M : ℚ} (hI : 0 ≤ I) (hF : 0 ≤ F)
    (hM : 0 ≤ M) : ∀ k, 0 ≤ backoffDelay I F M k
  | 0 => hI
  | k + 1 => le_min (mul_nonneg (backoffDelay_nonneg hI hF hM k) hF) hM

/-- C1: when the running flag stays set and every connection attempt fails,
connect_to_websocket makes exactly MAX_RETRIES = 5 attempts; between
consecutive attempts it waits the current backoff delay plus the sampled
jitter, where the delay grows from the initial delay by the fixed backoff
factor and is capped at the maximum delay; each wait is within plus/minus
20 percent of the delay; and the last failed attempt is followed only by
the giving-up error log — the trace ends, no further reconnection ever
happens. -/
theorem connect_ws_all_failures (I F M : ℚ) (u : Nat → ℚ)
    (hu : ∀ k, |u k| ≤ 1/5 * backoffDelay I F M (k + 1)) :
    wsLoopFail F M u 0 I =
      [WsEvent.attempt 1, WsEvent.sleep (backoffDelay I F M 1 + u 0),
       WsEvent.attempt 2, WsEvent.sleep (backoffDelay I F M 2 + u 1),
       WsEvent.attempt 3, WsEvent.sleep (backoffDelay I F M 3 + u 2),
       WsEvent.attempt 4, WsEvent.sleep (backoffDelay I F M 4 + u 3),
       WsEvent.attempt 5,
       WsEvent.errorLog
         "Maximum reconnection attempts reached (5). Giving up"] ∧
    ((wsLoopFail F M u 0 I).filter WsEvent.isAttempt).length = MAX_RETRIES ∧
    (wsLoopFail F M u 0 I).getLast? =
      some (WsEvent.errorLog
        "Maximum reconnection attempts reached (5). Giving up") ∧
    (∀ k, backoffDelay I F M (k + 1) = min (backoffDelay I F M k * F) M ∧
      backoffDelay I F M (k + 1) ≤ M) ∧
    (∀ k, |(backoffDelay I F M (k + 1) + u k) - backoffDelay I F M (k + 1)| ≤
      1/5 * backoffDelay I F M (k + 1)) := by
  have htrace : wsLoopFail F M u 0 I =
      [WsEvent.attempt 1, WsEvent.sleep (backoffDelay I F M 1 + u 0),
       WsEvent.attempt 2, WsEvent.sleep (backoffDelay I F M 2 + u 1),
       WsEvent.attempt 3, WsEvent.sleep (backoffDelay I F M 3 + u 2),
       WsEvent.attempt 4, WsEvent.sleep (backoffDelay I F M 4 + u 3),
       WsEvent.attempt 5,
       WsEvent.errorLog
         "Maximum reconnection attempts reached (5). Giving up"] := by
    simp [wsLoopFail, MAX_RETRIES, backoffDelay]
  refine ⟨htrace, ?_, ?_, fun k => ⟨rfl, min_le_right _ _⟩,
    fun k => by simpa using hu k⟩
  · rw [htrace]; rfl
  · rw [htrace]; rfl

/-- Witness for C1 with initial delay 1, factor 2, cap 10 and zero jitter
samples: the trace is the five attempts separated by the four capped
exponential delays, ending in the error log. -/
theorem connect_ws_all_failures_witness :
    wsLoopFail 2 10 (fun _ => 0) 0 1 =
      [WsEvent.attempt 1, WsEvent.sleep (backoffDelay 1 2 10 1 + 0),
       WsEvent.attempt 2, WsEvent.sleep (backoffDelay 1 2 10 2 + 0),
       WsEvent.attempt 3, WsEvent.sleep (backoffDelay 1 2 10 3 + 0),
       WsEvent.attempt 4, WsEvent.sleep (backoffDelay 1 2 10 4 + 0),
       WsEvent.attempt 5,
       WsEvent.errorLog
         "Maximum reconnection attempts reached (5). Giving up"] :=
  (connect_ws_all_failures 1 2 10 (fun _ => 0) (fun k => by
    have h0 : (0 : ℚ) ≤ backoffDelay 1 2 10 (k + 1) :=
      backoffDelay_nonneg (by norm_num) (by norm_num) (by norm_num) (k + 1)
    simp only [abs_zero]
    linarith)).1

/-! ## Claim C8 -/

/-- C8 counterexample: the claim as stated says that once the flag is
cleared no reconnection wait begins; but if stop_websocket clears the flag
while a connection attempt is in flight (the attempt is not
hard-cancelled), the except handler of that attempt still performs its
backoff wait: from the reachable state (connecting, flag clear) the loop
steps into the failWait location. -/
theorem ws_stop_midflight_still_waits :
    Relation.ReflTransGen WsStep
      ⟨WsLoc.outerCheck, true, 0⟩ ⟨WsLoc.connecting, false, 0⟩ ∧
    WsStep ⟨WsLoc.connecting, false, 0⟩ ⟨WsLoc.failWait, false, 1⟩ := by
  constructor
  · exact Relation.ReflTransGen.tail
      (Relation.ReflTransGen.single (WsStep.outerEnter 0 (by decide)))
      (WsStep.stopFlag WsLoc.connecting 0)
  · exact WsStep.connectFailRetry false 0 (by decide)

/-- C8 (amended): the running flag is consulted at the top of the outer
connection loop and of the inner receive loop; from any state at one of
those two check points with the flag cleared, no subsequent state of the
loop is a connection attempt or a reconnection wait. -/
theorem ws_stopped_at_check_never_connects (s s' : WsLoopState)
    (hrun : s.running = false)
    (hloc : s.loc = WsLoc.outerCheck ∨ s.loc = WsLoc.innerCheck)
    (h : Relation.ReflTransGen WsStep s s') :
    s'.loc ≠ WsLoc.connecting ∧ s'.loc ≠ WsLoc.failWait := by
  have inv : ∀ b, Relation.ReflTransGen WsStep s b →
      b.running = false ∧
      (b.loc = WsLoc.outerCheck ∨ b.loc = WsLoc.innerCheck ∨
        b.loc = WsLoc.done) := by
    intro b hb
    induction hb with
    | refl =>
      refine ⟨hrun, ?_⟩
      rcases hloc with h1 | h1
      · exact Or.inl h1
      · exact Or.inr (Or.inl h1)
    | tail hab hbc ih =>
      obtain ⟨hr, hl⟩ := ih
      cases hbc with
      | outerEnter rc hlt => simp at hr
      | outerExit r rc hcond => exact ⟨hr, Or.inr (Or.inr rfl)⟩
      | connectOk r rc => rcases hl with h1 | h1 | h1 <;> simp at h1
      | connectFailRetry r rc hlt =>
        rcases hl with h1 | h1 | h1 <;> simp at h1
      | connectFailGiveUp r rc hlt =>
        rcases hl with h1 | h1 | h1 <;> simp at h1
      | waitDone r rc => rcases hl with h1 | h1 | h1 <;> simp at h1
      | innerEnter rc => simp at hr
      | innerExit rc => exact ⟨hr, Or.inl rfl⟩
      | recvContinue r rc => rcases hl with h1 | h1 | h1 <;> simp at h1
      | recvClosed r rc => rcases hl with h1 | h1 | h1 <;> simp at h1
      | stopFlag l rc => simp at hr
  obtain ⟨hr, hl⟩ := inv s' h
  rcases hl with h1 | h1 | h1 <;> simp [h1]

/-- Witness for C8 (amended) at the outer check point with the flag
cleared and the empty run. -/
theorem ws_stopped_at_check_never_connects_witness :
    (⟨WsLoc.outerCheck, false, 0⟩ : WsLoopState).loc ≠ WsLoc.connecting ∧
    (⟨WsLoc.outerCheck, false, 0⟩ : WsLoopState).loc ≠ WsLoc.failWait :=
  ws_stopped_at_check_never_connects
    ⟨WsLoc.outerCheck, false, 0⟩ ⟨WsLoc.outerCheck, false, 0⟩
    rfl (Or.inl rfl) Relation.ReflTransGen.refl

/-! ## Claims C2, C3, C4: the login flow -/

/-- A login page body that contains both an alert-danger error box and a
device table row (plus a user profile link). -/
def alertWithDevicesResponse : LoginResponse where
  status := 200
  cookies := []
  xsrfCookieStr := some "Set-Cookie: XSRF-TOKEN=tok123; Path=/"
  html := { csrfContent := Option.none,
            alertDangerTexts := ["Your account is locked."],
            aHrefs := ["/users/42"], trIds := ["device_3"] }

/-- C2 counterexample: a login POST answered 200 with an XSRF-TOKEN cookie
and a body holding a tr element whose id starts with device_, on which
_async_login nevertheless returns False and stores no device ids — the
body also contains an alert-danger element, which the code checks first.
The claim's premises hold, its conclusion fails. -/
theorem login_devices_not_sufficient :
    alertWithDevicesResponse.status = 200 ∧
    asyncGetXsrfToken alertWithDevicesResponse = some "tok123" ∧
    alertWithDevicesResponse.html.trIds.filter isDeviceRowId =
      ["device_3"] ∧
    (asyncLogin ClientState.fresh alertWithDevicesResponse).1 = false ∧
    (asyncLogin ClientState.fresh alertWithDevicesResponse).2.deviceIds =
      [] := by
  decide

/-- C2 (amended): a 200 login response with an extractable XSRF-TOKEN
cookie, no alert-danger element, a user profile link, and at least one
device_ table row makes _async_login return True, store the extracted
token, and store the non-empty list of row ids with device_ removed. -/
theorem login_success_fields (s : ClientState) (r : LoginResponse)
    (tok : String)
    (h200 : r.status = 200)
    (htok : asyncGetXsrfToken r = some tok)
    (halert : r.html.alertDangerTexts = [])
    (huser : r.html.aHrefs.filter isUserHref ≠ [])
    (hdev : r.html.trIds.filter isDeviceRowId ≠ []) :
    (asyncLogin s r).1 = true ∧
    (asyncLogin s r).2.xsrfToken = some tok ∧
    (asyncLogin s r).2.deviceIds =
      (r.html.trIds.filter isDeviceRowId).map stripDeviceId ∧
    (asyncLogin s r).2.deviceIds ≠ [] := by
  obtain ⟨a, l, hl⟩ := List.exists_cons_of_ne_nil huser
  unfold asyncLogin
  simp [h200, htok, halert, hl, hdev]

/-- The login response of a healthy single-device account. -/
def goodLoginResponse : LoginResponse where
  status := 200
  cookies := []
  xsrfCookieStr := some "XSRF-TOKEN=tok123"
  html := { csrfContent := Option.none, alertDangerTexts := [],
            aHrefs := ["/users/42"], trIds := ["device_3"] }

/-- Witness for C2 (amended) on the healthy single-device response. -/
theorem login_success_fields_witness :
    (asyncLogin ClientState.fresh goodLoginResponse).1 = true ∧
    (asyncLogin ClientState.fresh goodLoginResponse).2.xsrfToken =
      some "tok123" ∧
    (asyncLogin ClientState.fresh goodLoginResponse).2.deviceIds =
      (goodLoginResponse.html.trIds.filter isDeviceRowId).map
        stripDeviceId ∧
    (asyncLogin ClientState.fresh goodLoginResponse).2.deviceIds ≠ [] :=
  login_success_fields ClientState.fresh goodLoginResponse "tok123"
    rfl (by decide) rfl (by decide) (by decide)

/-- A 200 start-page response carrying a csrf token. -/
def startOkResponse : StartResponse where
  status := 200
  cookies := [("session", "abc")]
  html := { csrfContent := some "csrf-tok", alertDangerTexts := [],
            aHrefs := [], trIds := [] }

/-- A 200 login response with an XSRF cookie, no error box and a device
row, but no /users/ profile link anywhere. -/
def loginNoUserLinkResponse : LoginResponse where
  status := 200
  cookies := []
  xsrfCookieStr := some "XSRF-TOKEN=tok123"
  html := { csrfContent := Option.none, alertDangerTexts := [],
            aHrefs := ["/settings"], trIds := ["device_3"] }

/-- C3: evaluation of the code at the failing input.  async_authenticate
returns False on a login page with no /users/ profile link — the logging
statement in _async_login references the undefined local device_id, the
NameError escapes to the outer handler — and error_code is then None, not
one of the four strings the code is documented to surface. -/
theorem auth_nameerror_leaves_errorcode_unset :
    (asyncAuthenticate ClientState.fresh startOkResponse
      loginNoUserLinkResponse).1 = false ∧
    (asyncAuthenticate ClientState.fresh startOkResponse
      loginNoUserLinkResponse).2.errorCode = Option.none := by
  decide

/-- _async_login leaves the error code alone or sets one of its three
codes. -/
theorem asyncLogin_errorCode (s : ClientState) (r : LoginResponse) :
    (asyncLogin s r).2.errorCode = s.errorCode ∨
    (asyncLogin s r).2.errorCode = some ERROR_INVALID_CREDENTIALS ∨
    (asyncLogin s r).2.errorCode = some ERROR_XSRF_TOKEN_MISSING ∨
    (asyncLogin s r).2.errorCode = some ERROR_NO_DEVICES_FOUND := by
  unfold asyncLogin
  repeat' split
  all_goals
    (by_cases hdev : List.filter isDeviceRowId r.html.trIds = [] <;>
      simp [hdev])

/-- _async_get_startpage never touches the error code. -/
theorem asyncGetStartpage_errorCode (s : ClientState) (r : StartResponse) :
    (asyncGetStartpage s r).2.errorCode = s.errorCode := by
  unfold asyncGetStartpage
  repeat' split
  all_goals simp

/-- C3 (amended): whenever async_authenticate on a freshly constructed
client returns False, error_code is one of the four documented strings or
is still None (the unexpected-exception paths return False without setting
a code). -/
theorem auth_failure_errorcode (start : StartResponse)
    (login : LoginResponse)
    (h : (asyncAuthenticate ClientState.fresh start login).1 = false) :
    (asyncAuthenticate ClientState.fresh start login).2.errorCode ∈
      ([Option.none, some ERROR_INVALID_CREDENTIALS,
        some ERROR_XSRF_TOKEN_MISSING, some ERROR_NO_DEVICES_FOUND,
        some ERROR_AUTH_TOKEN_MISSING] : List (Option String)) := by
  clear h
  have hs1 := asyncGetStartpage_errorCode ClientState.fresh start
  unfold asyncAuthenticate
  cases hsp : asyncGetStartpage ClientState.fresh start with
  | mk tok? s1 =>
    rw [hsp] at hs1
    have hs1' : s1.errorCode = Option.none := hs1
    cases tok? with
    | none => simp
    | some tok =>
      have hl := asyncLogin_errorCode { s1 with authToken := some tok } login
      simp only []
      rcases hl with h1 | h1 | h1 | h1 <;>
        simp_all

/-- Witness for C3 (amended): a failed start page (500) yields
auth_token_missing, a member of the allowed set. -/
theorem auth_failure_errorcode_witness :
    (asyncAuthenticate ClientState.fresh trivialEnv.startResponse
      trivialEnv.loginResponse).2.errorCode ∈
      ([Option.none, some ERROR_INVALID_CREDENTIALS,
        some ERROR_XSRF_TOKEN_MISSING, some ERROR_NO_DEVICES_FOUND,
        some ERROR_AUTH_TOKEN_MISSING] : List (Option String)) :=
  auth_failure_errorcode trivialEnv.startResponse trivialEnv.loginResponse
    (by decide)

/-- A 200 login response with an XSRF cookie and neither a user link nor
any device row. -/
def loginNoDevicesResponse : LoginResponse where
  status := 200
  cookies := []
  xsrfCookieStr := some "XSRF-TOKEN=tok123"
  html := { csrfContent := Option.none, alertDangerTexts := [],
            aHrefs := [], trIds := [] }

/-- C4 counterexample: a login response whose body has no device_ row on
which _async_login returns False but does NOT set no_devices_found: with
no /users/ link the NameError slip aborts the method before the device
check, leaving the error code unset. -/
theorem login_no_devices_code_counterexample :
    loginNoDevicesResponse.html.trIds.filter isDeviceRowId = [] ∧
    (asyncLogin ClientState.fresh loginNoDevicesResponse).1 = false ∧
    (asyncLogin ClientState.fresh loginNoDevicesResponse).2.errorCode ≠
      some ERROR_NO_DEVICES_FOUND := by
  decide

/-- C4 (amended): a 200 login response with an extractable XSRF-TOKEN
cookie, no alert-danger element and a user profile link, whose body has no
device_ row, makes _async_login return False with error code
no_devices_found. -/
theorem login_no_devices_error (s : ClientState) (r : LoginResponse)
    (tok : String)
    (h200 : r.status = 200)
    (htok : asyncGetXsrfToken r = some tok)
    (halert : r.html.alertDangerTexts = [])
    (huser : r.html.aHrefs.filter isUserHref ≠ [])
    (hdev : r.html.trIds.filter isDeviceRowId = []) :
    (asyncLogin s r).1 = false ∧
    (asyncLogin s r).2.errorCode = some ERROR_NO_DEVICES_FOUND := by
  obtain ⟨a, l, hl⟩ := List.exists_cons_of_ne_nil huser
  unfold asyncLogin
  simp [h200, htok, halert, hl, hdev]

/-- A 200 login response with an XSRF cookie and a user link but no device
rows. -/
def loginUserNoDevicesResponse : LoginResponse where
  status := 200
  cookies := []
  xsrfCookieStr := some "XSRF-TOKEN=tok123"
  html := { csrfContent := Option.none, alertDangerTexts := [],
            aHrefs := ["/users/42"], trIds := [] }

/-- Witness for C4 (amended). -/
theorem login_no_devices_error_witness :
    (asyncLogin ClientState.fresh loginUserNoDevicesResponse).1 = false ∧
    (asyncLogin ClientState.fresh loginUserNoDevicesResponse).2.errorCode =
      some ERROR_NO_DEVICES_FOUND :=
  login_no_devices_error ClientState.fresh loginUserNoDevicesResponse
    "tok123" rfl (by decide) rfl (by decide) rfl

/-! ## Claim C6 -/

/-- C6: dispatching a flow_updated WebSocket message through the
binary-sensor message registry hands the message's data dict to the flow
indicator sensor (and marks the online sensor seen); the flow indicator is
then on exactly when the carried flow_mode equals 1 — Python equality, so
the integer 1, the float 1.0 and True all count as 1 — and off for every
other flow_mode value. -/
theorem flow_update_sets_indicator (parseIso : String → Option Int)
    (now : Int) (msg m d : PyDict) (fv : PyVal)
    (f : FlowIndicatorBinarySensor) (o : OnlineStatusBinarySensor)
    (w : ValveBinarySensor)
    (hm : msg.get? "message" = some (PyVal.dict m))
    (hop : PyDict.get? m "operation" = some (PyVal.str "flow_updated"))
    (hd : PyDict.get? m "data" = some (PyVal.dict d))
    (hfv : PyDict.get? d "flow_mode" = some fv) :
    registryHandleMessage parseIso now msg
      [BSensor.flow f, BSensor.online o, BSensor.valve w] =
      .ok [BSensor.flow { deviceData := d },
           BSensor.online { deviceData := [("is_online", PyVal.bool true)],
                            lastSeen := some now },
           BSensor.valve w] ∧
    FlowIndicatorBinarySensor.is_on { deviceData := d } =
      some (fv.eqInt 1) ∧
    (fv.eqInt 1 = true →
      FlowIndicatorBinarySensor.is_on { deviceData := d } = some true) ∧
    (fv.eqInt 1 = false →
      FlowIndicatorBinarySensor.is_on { deviceData := d } = some false) := by
  have htr := PyDict.isTruthy_of_get? hfv
  have hion : FlowIndicatorBinarySensor.is_on { deviceData := d } =
      some (fv.eqInt 1) := by
    simp [FlowIndicatorBinarySensor.is_on, htr, PyDict.getD, hfv]
  refine ⟨?_, hion, fun h1 => by rw [hion, h1], fun h1 => by rw [hion, h1]⟩
  simp [registryHandleMessage, dispatchMsgType, hm, hop, PyVal.eqStr,
    MessageType.value, handle_flow_update, wsMessageRaw, hd, asDict,
    FlowIndicatorBinarySensor.handle_update,
    OnlineStatusBinarySensor.handle_update, PyDict.get?,
    Bind.bind, Except.bind, Pure.pure, Except.pure,
    List.mapM, List.mapM.loop]

/-- Witness for C6: a flow_updated message with flow_mode = 1 switches a
blank flow indicator on. -/
theorem flow_update_sets_indicator_witness :
    registryHandleMessage (fun _ => Option.none) 0
      [("message", PyVal.dict [("operation", PyVal.str "flow_updated"),
        ("data", PyVal.dict [("flow_mode", PyVal.int 1)])])]
      [BSensor.flow { deviceData := [] },
       BSensor.online { deviceData := [], lastSeen := Option.none },
       BSensor.valve { deviceData := [] }] =
      .ok [BSensor.flow { deviceData := [("flow_mode", PyVal.int 1)] },
           BSensor.online { deviceData := [("is_online", PyVal.bool true)],
                            lastSeen := some 0 },
           BSensor.valve { deviceData := [] }] ∧
    FlowIndicatorBinarySensor.is_on
      { deviceData := [("flow_mode", PyVal.int 1)] } = some true := by
  have h := flow_update_sets_indicator (fun _ => Option.none) 0
    [("message", PyVal.dict [("operation", PyVal.str "flow_updated"),
      ("data", PyVal.dict [("flow_mode", PyVal.int 1)])])]
    [("operation", PyVal.str "flow_updated"),
     ("data", PyVal.dict [("flow_mode", PyVal.int 1)])]
    [("flow_mode", PyVal.int 1)] (PyVal.int 1)
    { deviceData := [] } { deviceData := [], lastSeen := Option.none }
    { deviceData := [] } rfl rfl rfl rfl
  exact ⟨h.1, h.2.2.1 (by rfl)⟩

/-! ## Claim C10 -/

/-- Over a list of plain strings, matching a str value with eqStr is
membership. -/
theorem any_eqStr_mem (l : List String) (s : String) :
    (l.any fun v => (PyVal.str s).eqStr v) = decide (s ∈ l) := by
  induction l with
  | nil => simp
  | cons a l ih =>
    simp only [PyVal.eqStr] at ih
    by_cases hs : s = a
    · simp [List.any_cons, PyVal.eqStr, hs]
    · simp [List.any_cons, PyVal.eqStr, hs, ih]

/-- C10: on any parsed message dict whose message field, when present, is
itself a dict, _extract_message_type returns a string and never raises:
the top-level type value when that value is ping, welcome or
confirm_subscription; otherwise message.operation when it equals one of
the MessageType enum values; otherwise data_update when the message dict
carries a data key; otherwise the empty string — exactly the function
extractMessageTypeSpec written from the claim. -/
theorem extract_message_type_total (d : PyDict)
    (h : ∀ v, d.get? "message" = some v → ∃ m, v = PyVal.dict m) :
    extractMessageType d = .ok (PyVal.str (extractMessageTypeSpec d)) := by
  unfold extractMessageType extractMessageTypeSpec
  cases hm : d.get? "message" with
  | none =>
    cases ht : d.get? "type" with
    | none => simp [PyDict.getD, apply_ite, Bind.bind, Except.bind, Pure.pure, Except.pure, ht, PyVal.eqStr, MessageType.value]
    | some tv =>
      cases tv with
      | str s =>
        by_cases hs : s = "ping" ∨ s = "welcome" ∨ s = "confirm_subscription"
        · rcases hs with hs | hs | hs <;>
            subst hs <;>
            simp [PyDict.getD, apply_ite, Bind.bind, Except.bind, Pure.pure, Except.pure, ht, PyVal.eqStr, MessageType.value]
        · push_neg at hs
          obtain ⟨hs1, hs2, hs3⟩ := hs
          simp [PyDict.getD, apply_ite, Bind.bind, Except.bind, Pure.pure, Except.pure, ht, PyVal.eqStr, MessageType.value, hs1, hs2,
            hs3, hm, any_eqStr_mem]
      | _ =>
        simp [PyDict.getD, apply_ite, Bind.bind, Except.bind, Pure.pure, Except.pure, ht, PyVal.eqStr, MessageType.value, hm,
          any_eqStr_mem]
  | some v =>
    obtain ⟨m, rfl⟩ := h v hm
    cases ht : d.get? "type" with
    | none =>
      cases hop : PyDict.get? m "operation" with
      | none =>
        simp [PyDict.getD, apply_ite, Bind.bind, Except.bind, Pure.pure, Except.pure, ht, hop, PyVal.eqStr, MessageType.value, hm,
          any_eqStr_mem]
      | some opv =>
        cases opv with
        | str op =>
          by_cases hmem : op ∈ MessageType.allValues
          · simp [PyDict.getD, apply_ite, Bind.bind, Except.bind, Pure.pure, Except.pure, ht, hop, PyVal.eqStr, MessageType.value, hm,
              any_eqStr_mem, hmem]
          · simp [PyDict.getD, apply_ite, Bind.bind, Except.bind, Pure.pure, Except.pure, ht, hop, PyVal.eqStr, MessageType.value, hm,
              any_eqStr_mem, hmem]
        | _ =>
          simp [PyDict.getD, apply_ite, Bind.bind, Except.bind, Pure.pure, Except.pure, ht, hop, PyVal.eqStr, MessageType.value, hm,
            any_eqStr_mem]
    | some tv =>
      cases tv with
      | str s =>
        by_cases hs : s = "ping" ∨ s = "welcome" ∨ s = "confirm_subscription"
        · rcases hs with hs | hs | hs <;>
            subst hs <;>
            simp [PyDict.getD, apply_ite, Bind.bind, Except.bind, Pure.pure, Except.pure, ht, PyVal.eqStr, MessageType.value]
        · push_neg at hs
          obtain ⟨hs1, hs2, hs3⟩ := hs
          cases hop : PyDict.get? m "operation" with
          | none =>
            simp [PyDict.getD, apply_ite, Bind.bind, Except.bind, Pure.pure, Except.pure, ht, hop, PyVal.eqStr, MessageType.value, hm,
              any_eqStr_mem, hs1, hs2, hs3]
          | some opv =>
            cases opv with
            | str op =>
              by_cases hmem : op ∈ MessageType.allValues
              · simp [PyDict.getD, apply_ite, Bind.bind, Except.bind, Pure.pure, Except.pure, ht, hop, PyVal.eqStr, MessageType.value,
                  hm, any_eqStr_mem, hmem, hs1, hs2, hs3]
              · simp [PyDict.getD, apply_ite, Bind.bind, Except.bind, Pure.pure, Except.pure, ht, hop, PyVal.eqStr, MessageType.value,
                  hm, any_eqStr_mem, hmem, hs1, hs2, hs3]
            | _ =>
              simp [PyDict.getD, apply_ite, Bind.bind, Except.bind, Pure.pure, Except.pure, ht, hop, PyVal.eqStr, MessageType.value,
                hm, any_eqStr_mem, hs1, hs2, hs3]
      | _ =>
        cases hop : PyDict.get? m "operation" with
        | none =>
          simp [PyDict.getD, apply_ite, Bind.bind, Except.bind, Pure.pure, Except.pure, ht, hop, PyVal.eqStr, MessageType.value, hm,
            any_eqStr_mem]
        | some opv =>
          cases opv with
          | str op =>
            by_cases hmem : op ∈ MessageType.allValues
            · simp [PyDict.getD, apply_ite, Bind.bind, Except.bind, Pure.pure, Except.pure, ht, hop, PyVal.eqStr, MessageType.value,
                hm, any_eqStr_mem, hmem]
            · simp [PyDict.getD, apply_ite, Bind.bind, Except.bind, Pure.pure, Except.pure, ht, hop, PyVal.eqStr, MessageType.value,
                hm, any_eqStr_mem, hmem]
          | _ =>
            simp [PyDict.getD, apply_ite, Bind.bind, Except.bind, Pure.pure, Except.pure, ht, hop, PyVal.eqStr, MessageType.value, hm,
              any_eqStr_mem]

/-- Witness for C10 on a flow_updated operation message. -/
theorem extract_message_type_total_witness :
    extractMessageType
      [("message", PyVal.dict [("operation", PyVal.str "flow_updated")])] =
      .ok (PyVal.str (extractMessageTypeSpec
        [("message", PyVal.dict [("operation", PyVal.str "flow_updated")])])) :=
  extract_message_type_total _ (fun v hv =>
    ⟨[("operation", PyVal.str "flow_updated")], by
      simp [PyDict.get?] at hv
      exact hv.symm⟩)

end Leakomatic
